import Mathlib

/-
Verification of the Kafka topic controller
(internal/controller/topic/topic.go) of provider-kafka.

Each Go method of the connector / external client is embedded as a pure
Lean function.  The replies of the external calls (the Kubernetes client,
the credential extractor, and the kadm Kafka admin client) are passed in
as explicit arguments; the list of external calls actually issued is
returned as a trace.  A Go run-time panic (out-of-range slice index) is
modelled by returning `none`.
-/

namespace ProviderKafka

/-- Errors as built by the `github.com/pkg/errors` package plus the two
library error shapes that matter here: the `kerr.UnknownTopicOrPartition`
sentinel and opaque library errors. -/
inductive GoError where
  | new (msg : String)
  | errorf (msg : String)
  | wrap (inner : GoError) (msg : String)
  | unknownTopicOrPartition
  | lib (msg : String)
deriving DecidableEq

/-- `errors.Is e target`: compares `e` with the target, unwrapping
`errors.Wrap` layers. -/
def GoError.is : GoError → GoError → Bool
  | GoError.wrap inner msg, t =>
      if GoError.wrap inner msg = t then true else GoError.is inner t
  | e, t => if e = t then true else false

/-- `errors.Is` on a possibly-nil Go error (`nil` never matches a
non-nil target). -/
def optErrIs (e : Option GoError) (t : GoError) : Bool :=
  match e with
  | none => false
  | some e => e.is t

/-- True iff the error is an `errors.Wrap` of some inner error. -/
def GoError.isWrapped : GoError → Bool
  | GoError.wrap _ _ => true
  | _ => false

/-- Go slice indexing `xs[i]`; an out-of-range access is a run-time
panic, modelled as `none`. -/
def goIndex {α : Type} (xs : List α) (i : Nat) : Option α :=
  xs.get? i

-- Static error messages of topic.go.

def errNotTopic : String := "managed resource is not a Topic custom resource"

def errTrackPCUsage : String := "cannot track ProviderConfig usage"

def errGetPC : String := "cannot get ProviderConfig"

def errGetCreds : String := "cannot get credentials"

def errNewClient : String := "cannot create new Kafka client"

-- Data model: the Topic managed resource.

/-- `v1alpha1.TopicParameters` (the desired state, `Spec.ForProvider`). -/
structure TopicParameters where
  partitions : Int
  replicationFactor : Int
deriving DecidableEq

/-- `Status.AtProvider` of a Topic. -/
structure TopicAtProvider where
  id : String
deriving DecidableEq

/-- Status of a Topic: the observed ID and the resource conditions. -/
structure TopicStatus where
  atProvider : TopicAtProvider
  conditions : List String
deriving DecidableEq

/-- `cr.Status.SetConditions(v1.Available())`. -/
def setAvailable (st : TopicStatus) : TopicStatus :=
  { st with conditions := ["Available"] }

/-- A `v1alpha1.Topic` custom resource: its external name annotation, the
name in its ProviderConfig reference, its spec and its status. -/
structure Topic where
  externalName : String
  providerConfigRef : String
  forProvider : TopicParameters
  status : TopicStatus
deriving DecidableEq

/-- A `resource.Managed`: either a Topic custom resource or some other
managed-resource kind (for which the type assertion `mg.(*v1alpha1.Topic)`
fails). -/
inductive Managed where
  | topic (cr : Topic)
  | other (kind : String)
deriving DecidableEq

def Managed.isTopic : Managed → Bool
  | Managed.topic _ => true
  | Managed.other _ => false

-- Data model: replies of the external libraries.

/-- A `kadm` partition detail; only the replica list is relevant. -/
structure PartitionDetail where
  replicas : List Int
deriving DecidableEq

/-- A `kadm.TopicDetail`: topic ID, per-topic error, partition details. -/
structure TopicDetail where
  id : String
  err : Option GoError
  partitions : List PartitionDetail
deriving DecidableEq

instance : Inhabited TopicDetail := ⟨⟨"", none, []⟩⟩

/-- `kadm.TopicDetails`, the map from topic name to detail, as an
association list. -/
abbrev TopicDetails := List (String × TopicDetail)

/-- Go map lookup `td[name]` returning the value when the key is present. -/
def lookupTopic (td : TopicDetails) (name : String) : Option TopicDetail :=
  (td.find? (fun p => p.1 == name)).map (fun p => p.2)

/-- One element of the `kadm.CreateTopics` response slice. -/
structure CreateTopicResponse where
  id : String
  err : Option GoError
deriving DecidableEq

/-- One element of the `kadm.DeleteTopics` response slice. -/
structure DeleteTopicResponse where
  err : Option GoError
deriving DecidableEq

/-- The external calls a method can issue. -/
inductive Call where
  | track
  | getProviderConfig (name : String)
  | extractCredentials
  | newService
  | listTopics (topic : String)
  | createTopics (partitions : Int) (replicationFactor : Int) (topic : String)
  | deleteTopics (topic : String)
deriving DecidableEq

/-- `managed.ExternalObservation`; the zero value has both flags false. -/
structure ExternalObservation where
  resourceExists : Bool := false
  resourceUpToDate : Bool := false
deriving DecidableEq

-- newKafkaClient.

structure KafkaSASL where
  mechanism : String
  username : String
  password : String
deriving DecidableEq

structure KafkaConfig where
  brokers : List String
  sasl : Option KafkaSASL
deriving DecidableEq

/-- A `kgo.Opt` client option as assembled by `newKafkaClient`. -/
inductive KgoOpt where
  | seedBrokers (brokers : List String)
  | saslPlain (user : String) (pass : String)
deriving DecidableEq

/-- `newKafkaClient`: `parsed` is the result of `json.Unmarshal` on the
credential bytes, `newClientErr` the error (if any) of `kgo.NewClient`.
On success the assembled option list is returned. -/
def newKafkaClient (parsed : Except GoError KafkaConfig)
    (newClientErr : Option GoError) : Except GoError (List KgoOpt) :=
  match parsed with
  | Except.error e => Except.error (GoError.wrap e "cannot parse credentials")
  | Except.ok kc =>
      let opts := [KgoOpt.seedBrokers kc.brokers]
      let opts :=
        match kc.sasl with
        | some s => opts ++ [KgoOpt.saslPlain s.username s.password]
        | none => opts
      match newClientErr with
      | some e => Except.error e
      | none => Except.ok opts

-- Connect.

/-- The replies of the calls Connect makes: usage tracking, fetching the
ProviderConfig, extracting the credentials, and building the client. -/
structure ConnectEnv where
  trackErr : Option GoError
  getPCErr : Option GoError
  credErr : Option GoError
  newServiceErr : Option GoError
deriving DecidableEq

structure ConnectOutput where
  clientCreated : Bool
  err : Option GoError
  calls : List Call
deriving DecidableEq

/-- `(c *connector) Connect`. -/
def Connect (mg : Managed) (env : ConnectEnv) : ConnectOutput :=
  match mg with
  | Managed.other _ => ⟨false, some (GoError.new errNotTopic), []⟩
  | Managed.topic cr =>
      match env.trackErr with
      | some e => ⟨false, some (GoError.wrap e errTrackPCUsage), [Call.track]⟩
      | none =>
          match env.getPCErr with
          | some e =>
              ⟨false, some (GoError.wrap e errGetPC),
               [Call.track, Call.getProviderConfig cr.providerConfigRef]⟩
          | none =>
              match env.credErr with
              | some e =>
                  ⟨false, some (GoError.wrap e errGetCreds),
                   [Call.track, Call.getProviderConfig cr.providerConfigRef,
                    Call.extractCredentials]⟩
              | none =>
                  match env.newServiceErr with
                  | some e =>
                      ⟨false, some (GoError.wrap e errNewClient),
                       [Call.track, Call.getProviderConfig cr.providerConfigRef,
                        Call.extractCredentials, Call.newService]⟩
                  | none =>
                      ⟨true, none,
                       [Call.track, Call.getProviderConfig cr.providerConfigRef,
                        Call.extractCredentials, Call.newService]⟩

-- Observe.

structure ObserveOutput where
  obs : ExternalObservation
  err : Option GoError
  mg : Managed
  calls : List Call
deriving DecidableEq

/-- `(c *external) Observe`; `listResp` is the `(TopicDetails, error)`
reply of `c.kafkaClient.ListTopics`. -/
def Observe (mg : Managed) (listResp : TopicDetails × Option GoError) :
    Option ObserveOutput :=
  match mg with
  | Managed.other k =>
      some ⟨{}, some (GoError.new errNotTopic), Managed.other k, []⟩
  | Managed.topic cr =>
      let calls := [Call.listTopics cr.externalName]
      let td := listResp.1
      match listResp.2 with
      | some e => some ⟨{}, some e, Managed.topic cr, calls⟩
      | none =>
          let tOpt := lookupTopic td cr.externalName
          let t := tOpt.getD default
          if !tOpt.isSome || optErrIs t.err GoError.unknownTopicOrPartition then
            some ⟨{ resourceExists := false }, none, Managed.topic cr, calls⟩
          else
            let cr := { cr with
              status := setAvailable { cr.status with atProvider := { id := t.id } } }
            let upToDate := true
            let upToDate :=
              if (t.partitions.length : Int) ≠ cr.forProvider.partitions then false
              else upToDate
            match (if t.partitions.length > 0 then
                     (goIndex t.partitions 0).map
                       (fun p =>
                         decide ((p.replicas.length : Int) ≠ cr.forProvider.replicationFactor))
                   else some false) with
            | none => none
            | some second =>
                let upToDate := if second then false else upToDate
                some ⟨{ resourceExists := true, resourceUpToDate := upToDate },
                      none, Managed.topic cr, calls⟩

-- Create.

structure CreateOutput where
  err : Option GoError
  mg : Managed
  calls : List Call
deriving DecidableEq

/-- `(c *external) Create`; `createResp` is the `(responses, error)` reply
of `c.kafkaClient.CreateTopics`. -/
def Create (mg : Managed) (createResp : List CreateTopicResponse × Option GoError) :
    Option CreateOutput :=
  match mg with
  | Managed.other k =>
      some ⟨some (GoError.new errNotTopic), Managed.other k, []⟩
  | Managed.topic cr =>
      let calls := [Call.createTopics cr.forProvider.partitions
        cr.forProvider.replicationFactor cr.externalName]
      let resp := createResp.1
      match createResp.2 with
      | some e => some ⟨some e, Managed.topic cr, calls⟩
      | none =>
          if resp.length ≠ 1 then
            some ⟨some (GoError.errorf
                    ("unexpected number of createTopicResponse " ++ toString resp.length)),
                  Managed.topic cr, calls⟩
          else
            match goIndex resp 0 with
            | none => none
            | some r =>
                match r.err with
                | some e =>
                    some ⟨some (GoError.wrap e "create failed"), Managed.topic cr, calls⟩
                | none =>
                    let cr := { cr with
                      status := { cr.status with atProvider := { id := r.id } } }
                    some ⟨none, Managed.topic cr, calls⟩

-- Update.

structure UpdateOutput where
  err : Option GoError
  mg : Managed
  calls : List Call
deriving DecidableEq

/-- `(c *external) Update`: logs and returns an empty update with nil
error. -/
def Update (mg : Managed) : UpdateOutput :=
  ⟨none, mg, []⟩

-- Delete.

structure DeleteOutput where
  err : Option GoError
  mg : Managed
  calls : List Call
deriving DecidableEq

/-- `(c *external) Delete`; `deleteResp` is the `(responses, error)` reply
of `c.kafkaClient.DeleteTopics`.  The two error values built in the body
are discarded exactly as in the source (`errors.Errorf` and `errors.Wrap`
results are not returned), and `resp[0]` is evaluated unconditionally. -/
def Delete (mg : Managed) (deleteResp : List DeleteTopicResponse × Option GoError) :
    Option DeleteOutput :=
  match mg with
  | Managed.other k =>
      some ⟨some (GoError.new errNotTopic), Managed.other k, []⟩
  | Managed.topic cr =>
      let calls := [Call.deleteTopics cr.externalName]
      let resp := deleteResp.1
      match deleteResp.2 with
      | some e => some ⟨some e, Managed.topic cr, calls⟩
      | none =>
          let _discarded1 :=
            if resp.length ≠ 1 then
              some (GoError.errorf
                ("unexpected number of deleteTopicResponse " ++ toString resp.length))
            else none
          match goIndex resp 0 with
          | none => none
          | some r =>
              let _discarded2 := r.err.map (fun e => GoError.wrap e "delete failed")
              some ⟨none, Managed.topic cr, calls⟩

/-- Closed form of the up-to-date flag Observe computes for a found topic:
the partition count matches, and either there are no partitions or the
first partition's replica count matches the replication factor. -/
def observedUpToDate (t : TopicDetail) (p : TopicParameters) : Bool :=
  decide ((t.partitions.length : Int) = p.partitions) &&
    (match t.partitions with
     | [] => true
     | q :: _ => decide ((q.replicas.length : Int) = p.replicationFactor))

/-- Observe on a found topic whose error is not `UnknownTopicOrPartition`:
it never panics, reports the topic as existing, stores the topic ID, marks
the resource available, and computes the up-to-date flag as
`observedUpToDate`. -/
theorem Observe_found (cr : Topic) (td : TopicDetails) (t : TopicDetail)
    (hfound : lookupTopic td cr.externalName = some t)
    (hnotunk : optErrIs t.err GoError.unknownTopicOrPartition = false) :
    Observe (Managed.topic cr) (td, none) =
      some ⟨⟨true, observedUpToDate t cr.forProvider⟩, none,
        Managed.topic { cr with
          status := setAvailable { cr.status with atProvider := ⟨t.id⟩ } },
        [Call.listTopics cr.externalName]⟩ := by
  cases hp : t.partitions with
  | nil =>
      simp [Observe, hfound, hnotunk, observedUpToDate, hp, goIndex]
  | cons q qs =>
      simp [Observe, hfound, hnotunk, observedUpToDate, hp, goIndex]
      by_cases h1 : ((qs.length : Int) + 1 = cr.forProvider.partitions) <;>
        by_cases h2 : ((q.replicas.length : Int) = cr.forProvider.replicationFactor) <;>
          simp [h1, h2]

/-- C1 counterexample: a listed topic whose second partition has a replica
count (2) differing from the desired replication factor (1) — so some
partition's replica count differs from the spec — yet Observe returns
ResourceUpToDate = true, because only the first partition is compared. -/
theorem c1_counterexample :
    (Observe (Managed.topic ⟨"t", "pc", ⟨2, 1⟩, ⟨⟨""⟩, []⟩⟩)
        ([("t", ⟨"id1", none, [⟨[1]⟩, ⟨[1, 2]⟩]⟩)], none)).map
      (fun o => o.obs.resourceUpToDate) = some true
    ∧ ([⟨[1]⟩, ⟨[(1 : Int), 2]⟩] : List PartitionDetail).any
        (fun p => p.replicas.length != 1) = true := by
  constructor
  · decide
  · decide

/-- C1 (amended): for a topic found in the listing, if the partition count
differs from the desired partition count, or the FIRST listed partition's
replica count differs from the desired replication factor, then Observe
returns ResourceUpToDate = false. -/
theorem c1_first_partition_drift_not_up_to_date (cr : Topic) (td : TopicDetails)
    (t : TopicDetail) (out : ObserveOutput)
    (hfound : lookupTopic td cr.externalName = some t)
    (hnotunk : optErrIs t.err GoError.unknownTopicOrPartition = false)
    (hdiff : (t.partitions.length : Int) ≠ cr.forProvider.partitions ∨
      ∃ q, goIndex t.partitions 0 = some q ∧
        (q.replicas.length : Int) ≠ cr.forProvider.replicationFactor)
    (hout : Observe (Managed.topic cr) (td, none) = some out) :
    out.obs.resourceUpToDate = false := by
  rw [Observe_found cr td t hfound hnotunk] at hout
  have hval : out.obs.resourceUpToDate = observedUpToDate t cr.forProvider := by
    cases hout; rfl
  rw [hval]
  rcases hdiff with hne | ⟨q, hq, hne⟩
  · simp [observedUpToDate, hne]
  · cases hp : t.partitions with
    | nil => rw [hp] at hq; simp [goIndex] at hq
    | cons q0 qs =>
        rw [hp] at hq
        simp [goIndex] at hq
        subst hq
        simp [observedUpToDate, hp, hne]

/-- C1 witness: a topic whose spec wants 1 partition but whose listing has
2 is reported not up to date. -/
theorem c1_first_partition_drift_witness :
    (⟨⟨true, false⟩, none,
      Managed.topic ⟨"t", "pc", ⟨1, 1⟩, ⟨⟨"id1"⟩, ["Available"]⟩⟩,
      [Call.listTopics "t"]⟩ : ObserveOutput).obs.resourceUpToDate = false :=
  c1_first_partition_drift_not_up_to_date
    ⟨"t", "pc", ⟨1, 1⟩, ⟨⟨""⟩, []⟩⟩
    [("t", ⟨"id1", none, [⟨[1]⟩, ⟨[1]⟩]⟩)]
    ⟨"id1", none, [⟨[1]⟩, ⟨[1]⟩]⟩ _
    (by decide) (by decide) (Or.inl (by decide)) (by decide)

/-- C2: Delete on an empty delete-response list panics: the unconditional
access `resp[0]` is out of range, because the length-check branch only
builds an error value and discards it instead of returning. -/
theorem c2_delete_panics_on_empty_response :
    Delete (Managed.topic ⟨"t", "pc", ⟨1, 1⟩, ⟨⟨""⟩, []⟩⟩) ([], none) = none := by
  decide

/-- C3: Delete on a single-element response carrying an error returns a
nil error anyway: the `errors.Wrap` result is discarded, so the per-topic
error is swallowed, not propagated. -/
theorem c3_delete_swallows_response_error :
    (Delete (Managed.topic ⟨"t", "pc", ⟨1, 1⟩, ⟨⟨""⟩, []⟩⟩)
        ([⟨some (GoError.lib "delete failed upstream")⟩], none)).map
      (fun o => o.err) = some none := by
  decide

/-- C4: when the topic is absent from the listing map, or its per-topic
error is `kerr.UnknownTopicOrPartition`, Observe returns
ResourceExists = false with a nil error (and leaves the resource
unchanged). -/
theorem c4_unknown_topic_reported_absent (cr : Topic) (td : TopicDetails)
    (h : lookupTopic td cr.externalName = none ∨
      ∃ t, lookupTopic td cr.externalName = some t ∧
        optErrIs t.err GoError.unknownTopicOrPartition = true) :
    Observe (Managed.topic cr) (td, none) =
      some ⟨⟨false, false⟩, none, Managed.topic cr,
        [Call.listTopics cr.externalName]⟩ := by
  rcases h with h | ⟨t, hf, hu⟩
  · simp [Observe, h, optErrIs]
  · simp [Observe, hf, hu]

/-- C4 witness: an empty listing yields ResourceExists = false, nil error. -/
theorem c4_unknown_topic_witness :
    Observe (Managed.topic ⟨"t", "pc", ⟨1, 1⟩, ⟨⟨""⟩, []⟩⟩) ([], none) =
      some ⟨⟨false, false⟩, none,
        Managed.topic ⟨"t", "pc", ⟨1, 1⟩, ⟨⟨""⟩, []⟩⟩,
        [Call.listTopics "t"]⟩ :=
  c4_unknown_topic_reported_absent ⟨"t", "pc", ⟨1, 1⟩, ⟨⟨""⟩, []⟩⟩ []
    (Or.inl (by decide))

/-- C5: a create-response list whose length is not 1, or a single response
carrying an error, makes Create return a non-nil error with the managed
resource (hence Status.AtProvider.ID) unchanged. -/
theorem c5_create_error_leaves_status_unchanged (cr : Topic)
    (resp : List CreateTopicResponse)
    (h : resp.length ≠ 1 ∨ ∃ r e, resp = [r] ∧ r.err = some e) :
    ∃ err, Create (Managed.topic cr) (resp, none) =
      some ⟨some err, Managed.topic cr,
        [Call.createTopics cr.forProvider.partitions
          cr.forProvider.replicationFactor cr.externalName]⟩ := by
  rcases h with h | ⟨r, e, hr, he⟩
  · exact ⟨GoError.errorf
      ("unexpected number of createTopicResponse " ++ toString resp.length),
      by simp [Create, h]⟩
  · subst hr
    exact ⟨GoError.wrap e "create failed", by simp [Create, goIndex, he]⟩

/-- C5 witness: an empty create-response list produces an error and leaves
the resource unchanged. -/
theorem c5_create_error_witness :
    ∃ err, Create (Managed.topic ⟨"t", "pc", ⟨3, 2⟩, ⟨⟨"old"⟩, []⟩⟩) ([], none) =
      some ⟨some err, Managed.topic ⟨"t", "pc", ⟨3, 2⟩, ⟨⟨"old"⟩, []⟩⟩,
        [Call.createTopics 3 2 "t"]⟩ :=
  c5_create_error_leaves_status_unchanged ⟨"t", "pc", ⟨3, 2⟩, ⟨⟨"old"⟩, []⟩⟩ []
    (Or.inl (by decide))

/-- C6 counterexample: a ListTopics transport failure is returned by
Observe exactly as the library produced it — not wrapped with any static
message. -/
theorem c6_counterexample :
    (Observe (Managed.topic ⟨"t", "pc", ⟨1, 1⟩, ⟨⟨""⟩, []⟩⟩)
        ([], some (GoError.lib "connection refused"))).map (fun o => o.err)
      = some (some (GoError.lib "connection refused"))
    ∧ (GoError.lib "connection refused").isWrapped = false := by
  constructor
  · decide
  · decide

/-- C6 (amended): Connect wraps each underlying failure with its static
message; Observe, Create and Delete return the Kafka client's transport
error to the caller unchanged, without wrapping; Create wraps a
per-response error with the static message "create failed". -/
theorem c6_error_wrapping_policy (cr : Topic) (e : GoError) :
    (∀ env : ConnectEnv, env.trackErr = some e →
      (Connect (Managed.topic cr) env).err = some (GoError.wrap e errTrackPCUsage))
  ∧ (∀ env : ConnectEnv, env.trackErr = none → env.getPCErr = some e →
      (Connect (Managed.topic cr) env).err = some (GoError.wrap e errGetPC))
  ∧ (∀ env : ConnectEnv, env.trackErr = none → env.getPCErr = none →
      env.credErr = some e →
      (Connect (Managed.topic cr) env).err = some (GoError.wrap e errGetCreds))
  ∧ (∀ env : ConnectEnv, env.trackErr = none → env.getPCErr = none →
      env.credErr = none → env.newServiceErr = some e →
      (Connect (Managed.topic cr) env).err = some (GoError.wrap e errNewClient))
  ∧ (∀ td : TopicDetails,
      (Observe (Managed.topic cr) (td, some e)).map (fun o => o.err)
        = some (some e))
  ∧ (∀ resp : List CreateTopicResponse,
      (Create (Managed.topic cr) (resp, some e)).map (fun o => o.err)
        = some (some e))
  ∧ (∀ resp : List DeleteTopicResponse,
      (Delete (Managed.topic cr) (resp, some e)).map (fun o => o.err)
        = some (some e))
  ∧ (∀ r : CreateTopicResponse, r.err = some e →
      (Create (Managed.topic cr) ([r], none)).map (fun o => o.err)
        = some (some (GoError.wrap e "create failed"))) := by
  refine ⟨?_, ?_, ?_, ?_, ?_, ?_, ?_, ?_⟩
  · intro env h
    obtain ⟨t, g, c, n⟩ := env
    simp only at h
    subst h
    simp [Connect]
  · intro env h1 h2
    obtain ⟨t, g, c, n⟩ := env
    simp only at h1 h2
    subst h1; subst h2
    simp [Connect]
  · intro env h1 h2 h3
    obtain ⟨t, g, c, n⟩ := env
    simp only at h1 h2 h3
    subst h1; subst h2; subst h3
    simp [Connect]
  · intro env h1 h2 h3 h4
    obtain ⟨t, g, c, n⟩ := env
    simp only at h1 h2 h3 h4
    subst h1; subst h2; subst h3; subst h4
    simp [Connect]
  · intro td
    simp [Observe]
  · intro resp
    simp [Create]
  · intro resp
    simp [Delete]
  · intro r h
    simp [Create, goIndex, h]

/-- C6 witness: the wrapping behaviour of Connect and Create and the
unchanged propagation by Observe, at concrete inputs. -/
theorem c6_error_wrapping_witness :
    (Connect (Managed.topic ⟨"t", "pc", ⟨1, 1⟩, ⟨⟨""⟩, []⟩⟩)
        ⟨some (GoError.lib "x"), none, none, none⟩).err
      = some (GoError.wrap (GoError.lib "x") errTrackPCUsage)
  ∧ (Observe (Managed.topic ⟨"t", "pc", ⟨1, 1⟩, ⟨⟨""⟩, []⟩⟩)
        ([], some (GoError.lib "x"))).map (fun o => o.err)
      = some (some (GoError.lib "x"))
  ∧ (Create (Managed.topic ⟨"t", "pc", ⟨1, 1⟩, ⟨⟨""⟩, []⟩⟩)
        ([⟨"id", some (GoError.lib "x")⟩], none)).map (fun o => o.err)
      = some (some (GoError.wrap (GoError.lib "x") "create failed")) :=
  ⟨(c6_error_wrapping_policy ⟨"t", "pc", ⟨1, 1⟩, ⟨⟨""⟩, []⟩⟩ (GoError.lib "x")).1
      ⟨some (GoError.lib "x"), none, none, none⟩ rfl,
   (c6_error_wrapping_policy ⟨"t", "pc", ⟨1, 1⟩, ⟨⟨""⟩, []⟩⟩
      (GoError.lib "x")).2.2.2.2.1 [],
   (c6_error_wrapping_policy ⟨"t", "pc", ⟨1, 1⟩, ⟨⟨""⟩, []⟩⟩
      (GoError.lib "x")).2.2.2.2.2.2.2 ⟨"id", some (GoError.lib "x")⟩ rfl⟩

/-- C7: Update is unconditionally a no-op: for every managed resource it
returns an empty update with a nil error, issues no Kafka call, and leaves
the resource unchanged. -/
theorem c7_update_is_noop (mg : Managed) : Update mg = ⟨none, mg, []⟩ := rfl

/-- C8: with a SASL block present, newKafkaClient configures plain SASL
with the given username and password, and the assembled options are
independent of the mechanism field, which is parsed but never consulted. -/
theorem c8_sasl_plain_ignores_mechanism (kc : KafkaConfig) (s : KafkaSASL)
    (h : kc.sasl = some s) :
    newKafkaClient (Except.ok kc) none =
      Except.ok [KgoOpt.seedBrokers kc.brokers,
        KgoOpt.saslPlain s.username s.password]
  ∧ ∀ m : String,
      newKafkaClient
          (Except.ok { kc with sasl := some { s with mechanism := m } }) none
        = newKafkaClient (Except.ok kc) none := by
  constructor
  · simp [newKafkaClient, h]
  · intro m
    simp [newKafkaClient, h]

/-- C8 witness: a config requesting a scram mechanism still gets plain
SASL with its username and password. -/
theorem c8_sasl_plain_witness :
    newKafkaClient (Except.ok ⟨["b1"], some ⟨"scram-sha-512", "u", "p"⟩⟩) none =
      Except.ok [KgoOpt.seedBrokers ["b1"], KgoOpt.saslPlain "u" "p"] :=
  (c8_sasl_plain_ignores_mechanism ⟨["b1"], some ⟨"scram-sha-512", "u", "p"⟩⟩
    ⟨"scram-sha-512", "u", "p"⟩ rfl).1

/-- C9: a desired spec with 0 partitions and a listed topic with an empty
partition list is up to date for every replication factor, and Observe
does not panic: the replica-count access is short-circuited by the
length guard. -/
theorem c9_zero_partitions_up_to_date (cr : Topic) (td : TopicDetails)
    (t : TopicDetail)
    (hzero : cr.forProvider.partitions = 0)
    (hfound : lookupTopic td cr.externalName = some t)
    (hnotunk : optErrIs t.err GoError.unknownTopicOrPartition = false)
    (hempty : t.partitions = []) :
    Observe (Managed.topic cr) (td, none) =
      some ⟨⟨true, true⟩, none,
        Managed.topic { cr with
          status := setAvailable { cr.status with atProvider := ⟨t.id⟩ } },
        [Call.listTopics cr.externalName]⟩ := by
  rw [Observe_found cr td t hfound hnotunk]
  simp [observedUpToDate, hempty, hzero]

/-- C9 witness: spec (0 partitions, replication factor 5) against a listed
topic with no partitions is reported up to date. -/
theorem c9_zero_partitions_witness :
    Observe (Managed.topic ⟨"t", "pc", ⟨0, 5⟩, ⟨⟨""⟩, []⟩⟩)
        ([("t", ⟨"idz", none, []⟩)], none) =
      some ⟨⟨true, true⟩, none,
        Managed.topic ⟨"t", "pc", ⟨0, 5⟩, ⟨⟨"idz"⟩, ["Available"]⟩⟩,
        [Call.listTopics "t"]⟩ :=
  c9_zero_partitions_up_to_date ⟨"t", "pc", ⟨0, 5⟩, ⟨⟨""⟩, []⟩⟩
    [("t", ⟨"idz", none, []⟩)] ⟨"idz", none, []⟩
    (by decide) (by decide) (by decide) (by decide)

/-- C10: on a managed resource that is not a Topic, each of Connect,
Observe, Create and Delete returns the static "not a Topic" error
immediately, issues no external call, and leaves the resource unchanged. -/
theorem c10_not_topic_rejected (mg : Managed) (h : mg.isTopic = false) :
    (∀ env : ConnectEnv,
      Connect mg env = ⟨false, some (GoError.new errNotTopic), []⟩)
  ∧ (∀ lr : TopicDetails × Option GoError,
      Observe mg lr = some ⟨⟨false, false⟩, some (GoError.new errNotTopic), mg, []⟩)
  ∧ (∀ cresp : List CreateTopicResponse × Option GoError,
      Create mg cresp = some ⟨some (GoError.new errNotTopic), mg, []⟩)
  ∧ (∀ dresp : List DeleteTopicResponse × Option GoError,
      Delete mg dresp = some ⟨some (GoError.new errNotTopic), mg, []⟩) := by
  cases mg with
  | topic cr => simp [Managed.isTopic] at h
  | other k =>
      exact ⟨fun env => rfl, fun lr => rfl, fun cresp => rfl, fun dresp => rfl⟩

/-- C10 witness: a non-Topic resource is rejected by Connect with the
static error and no calls. -/
theorem c10_not_topic_witness :
    Connect (Managed.other "Bucket") ⟨none, none, none, none⟩ =
      ⟨false, some (GoError.new errNotTopic), []⟩ :=
  (c10_not_topic_rejected (Managed.other "Bucket") (by decide)).1
    ⟨none, none, none, none⟩

end ProviderKafka
